import Mathlib

/-
  Verification of the koven oven simulator and its frame codec.

  The definitions below are a shallow embedding of the C sources:
  - `koven.c` / `koven.h`: the oven state machine (`koven_init`,
    `koven_execute`, `koven_tick`).
  - `protocol.c` / `protocol.h`: the frame codec (`crc16_usb`,
    `unmarshall_command_frame`, `marshall_event_frame`).

  Machine integers are modelled as `Int` (for the `int16_t` fields) and
  `Nat` (for the `uint8_t` / `uint16_t` values), with explicit `% 256` /
  `% 65536` masks exactly where the C types truncate.  Byte buffers are
  `List Nat` whose entries are read through an 8-bit mask, matching
  `uint8_t` reads.  Fallible C functions returning `-1` are modelled with
  `Option`.
-/

/-- The `State` enum from `koven.h` (IDLE = 0, PREHEATING = 1, BAKING = 2,
COOLING_DOWN = 3). -/
inductive State where
  | idle
  | preheating
  | baking
  | coolingDown
deriving DecidableEq, Repr

/-- Numeric value of each `State` enumerator, as laid down in `koven.h`. -/
def stateCode : State → Nat
  | State.idle => 0
  | State.preheating => 1
  | State.baking => 2
  | State.coolingDown => 3

/-- The `Koven` struct from `koven.h`: current state plus four signed
16-bit fields. -/
structure Koven where
  state : State
  current_temperature : Int
  remaining_time : Int
  programmed_duration : Int
  programmed_temperature : Int
deriving DecidableEq, Repr

/-- The `CommandPayload` struct from `koven.h`: one action byte and two
signed 16-bit fields. -/
structure CommandPayload where
  action : Nat
  temperature : Int
  duration : Int
deriving DecidableEq, Repr

/-- The `EventPayload` struct from `koven.h`: one state byte and four
signed 16-bit fields. -/
structure EventPayload where
  state : Nat
  current_temperature : Int
  remaining_time : Int
  programmed_duration : Int
  programmed_temperature : Int
deriving DecidableEq, Repr

/-- `ROOM_TEMPERATURE` from `koven.c`. -/
def ROOM_TEMPERATURE : Int := 25

/-- `koven_init` from `koven.c`: IDLE at room temperature, every other
field set to the `-1` sentinel. -/
def koven_init : Koven :=
  { state := State.idle
    current_temperature := ROOM_TEMPERATURE
    remaining_time := -1
    programmed_duration := -1
    programmed_temperature := -1 }

/-- `koven_execute` from `koven.c` (the non-null case; the C function
returns immediately when either pointer is null).  `ACTION_START = 1`,
`ACTION_STOP = 2`. -/
def koven_execute (koven : Koven) (cmd : CommandPayload) : Koven :=
  if cmd.action = 1 then
    if koven.state = State.idle then
      { koven with
          state := State.preheating
          programmed_duration := cmd.duration
          programmed_temperature := cmd.temperature }
    else koven
  else if cmd.action = 2 then
    { koven with
        state := State.idle
        remaining_time := -1
        programmed_temperature := -1
        programmed_duration := -1 }
  else koven

/-- The state-update part of `koven_tick` from `koven.c` (the body between
the null guard and the event write-back). -/
def koven_tick (koven : Koven) : Koven :=
  if koven.state = State.preheating then
    if koven.current_temperature < koven.programmed_temperature then
      { koven with current_temperature := koven.current_temperature + 1 }
    else
      { koven with
          state := State.baking
          remaining_time := koven.programmed_duration }
  else if koven.state = State.baking then
    if koven.remaining_time > 0 then
      { koven with remaining_time := koven.remaining_time - 1 }
    else
      if koven.current_temperature > ROOM_TEMPERATURE then
        { koven with
            state := State.coolingDown
            programmed_temperature := -1
            programmed_duration := -1 }
      else koven_init
  else if koven.state = State.coolingDown then
    if koven.current_temperature > ROOM_TEMPERATURE then
      { koven with current_temperature := koven.current_temperature - 1 }
    else koven_init
  else koven

/-- The event write-back at the end of `koven_tick`: the snapshot copies
the oven's five fields (the state as its enum byte). -/
def koven_snapshot (koven : Koven) : EventPayload :=
  { state := stateCode koven.state
    current_temperature := koven.current_temperature
    remaining_time := koven.remaining_time
    programmed_duration := koven.programmed_duration
    programmed_temperature := koven.programmed_temperature }

/-- `koven_tick` from `koven.c` with its pointer guard: `none` models a
null `Koven*`, the boolean models whether the `EventPayload*` is non-null.
`if (!koven || !event) return;` makes the whole call a no-op unless both
are present. -/
def koven_tick_c (koven : Option Koven) (eventPresent : Bool) :
    Option Koven × Option EventPayload :=
  match koven, eventPresent with
  | some k, true => (some (koven_tick k), some (koven_snapshot (koven_tick k)))
  | k, _ => (k, none)

/-- All ovens reachable from `koven_init` by any sequence of
`koven_execute` and `koven_tick` calls. -/
inductive Reachable : Koven → Prop where
  | init : Reachable koven_init
  | exec (cmd : CommandPayload) {k : Koven} :
      Reachable k → Reachable (koven_execute k cmd)
  | tick {k : Koven} : Reachable k → Reachable (koven_tick k)

/- ----------------------------------------------------------------
   Frame codec (`protocol.c`)
   ---------------------------------------------------------------- -/

/-- One iteration of the inner bit loop of `crc16_usb`: shift right and
conditionally XOR with the reflected polynomial `0xA001`. -/
def crcStep (crc : Nat) : Nat :=
  if crc % 2 = 1 then (crc / 2) ^^^ 0xA001 else crc / 2

/-- `n` iterations of `crcStep` (the `for (j = 0; j < 8; j++)` loop). -/
def crcRounds : Nat → Nat → Nat
  | crc, 0 => crc
  | crc, n + 1 => crcRounds (crcStep crc) n

/-- One iteration of the outer byte loop of `crc16_usb`: XOR in the next
input byte (a `uint8_t`, hence the 8-bit mask) and run eight bit rounds. -/
def crcByte (crc b : Nat) : Nat := crcRounds (crc ^^^ (b % 256)) 8

/-- `crc16_usb` from `protocol.c`: CRC-16 with reflected polynomial
`0xA001`, initial register `0xFFFF`, final XOR `0xFFFF`. -/
def crc16_usb (data : List Nat) : Nat :=
  (data.foldl crcByte 0xFFFF) ^^^ 0xFFFF

/-- Read byte `i` of a buffer as the C code reads a `uint8_t`:
out-of-range reads never happen after the length checks, so the default
is irrelevant. -/
def byteAt (data : List Nat) (i : Nat) : Nat := data.getD i 0 % 256

/-- `le_to_uint16` from `protocol.c`: `bytes[0] | (bytes[1] << 8)`. -/
def le_to_uint16 (b0 b1 : Nat) : Nat := b0 % 256 + 256 * (b1 % 256)

/-- Reinterpret a `uint16_t` value as the `int16_t` with the same bits. -/
def toSigned16 (v : Nat) : Int :=
  if v < 32768 then (v : Int) else (v : Int) - 65536

/-- `le_to_int16` from `protocol.c`: little-endian read followed by the
cast to `int16_t`. -/
def le_to_int16 (b0 b1 : Nat) : Int := toSigned16 (le_to_uint16 b0 b1)

/-- `uint16_to_le` from `protocol.c`: low byte first. -/
def uint16_to_le (v : Nat) : List Nat := [v % 256, (v / 256) % 256]

/-- `int16_to_le` from `protocol.c`: the `int16_t` is cast to `uint16_t`
(two's complement, hence the Euclidean `% 65536`) and written
little-endian. -/
def int16_to_le (v : Int) : List Nat := uint16_to_le ((v % 65536).toNat)

/-- `unmarshall_command_frame` from `protocol.c` (the non-null case).
`MSG_TYPE_COMMAND = 0x01`; `sizeof(CommandPayload) = 5`.  The checks are
performed in the source's order; `none` models the `-1` return. -/
def unmarshall_command_frame (data : List Nat) : Option CommandPayload :=
  if data.length < 10 then none
  else
    let msg_type := byteAt data 0
    let payload_size := le_to_uint16 (byteAt data 1) (byteAt data 2)
    if msg_type ≠ 1 then none
    else if payload_size ≠ 5 then none
    else if data.length < 1 + 2 + payload_size + 2 then none
    else
      let received_crc :=
        le_to_uint16 (byteAt data (3 + payload_size)) (byteAt data (4 + payload_size))
      let calculated_crc := crc16_usb (data.take (3 + payload_size))
      if received_crc ≠ calculated_crc then none
      else
        some
          { action := byteAt data 3
            temperature := le_to_int16 (byteAt data 4) (byteAt data 5)
            duration := le_to_int16 (byteAt data 6) (byteAt data 7) }

/-- `marshall_event_frame` from `protocol.c` (the non-null case).
`MSG_TYPE_EVENT = 0x02`; `sizeof(EventPayload) = 9`.  On success the
result is the written frame together with the returned length. -/
def marshall_event_frame (event : EventPayload) (buffer_size : Nat) :
    Option (List Nat × Nat) :=
  let payload_size := 9
  let frame_size := 1 + 2 + payload_size + 2
  if buffer_size < frame_size then none
  else
    let payload :=
      (event.state % 256) ::
        (int16_to_le event.current_temperature ++
          int16_to_le event.remaining_time ++
          int16_to_le event.programmed_duration ++
          int16_to_le event.programmed_temperature)
    let hdr := 2 :: uint16_to_le payload_size
    let crc := crc16_usb (hdr ++ payload)
    some (hdr ++ payload ++ uint16_to_le crc, frame_size)

/- ----------------------------------------------------------------
   Theorems
   ---------------------------------------------------------------- -/

set_option maxRecDepth 8000

/-- C5: `crc16_usb` is a deterministic function of its input bytes,
returns `0xB4C8` for the nine-byte ASCII input "123456789", and returns
`0x0000` for a zero-length input. -/
theorem C5_crc_props :
    (∀ d1 d2 : List Nat, d1 = d2 → crc16_usb d1 = crc16_usb d2) ∧
    crc16_usb [0x31, 0x32, 0x33, 0x34, 0x35, 0x36, 0x37, 0x38, 0x39] = 0xB4C8 ∧
    crc16_usb [] = 0 :=
  ⟨fun d1 d2 h => by rw [h], by decide, by decide⟩

/-- Witness for C5 at a concrete input. -/
theorem C5_crc_props_witness : crc16_usb [0x31] = crc16_usb [0x31] :=
  C5_crc_props.1 [0x31] [0x31] rfl

/-- C1: `koven_tick` implements exactly the specified per-state transition
function, and (through `koven_tick_c`) the produced event snapshot copies
the oven's five fields after the update. -/
theorem C1_tick_spec (k : Koven) :
    (k.state = State.preheating →
      k.current_temperature < k.programmed_temperature →
      koven_tick k = { k with current_temperature := k.current_temperature + 1 }) ∧
    (k.state = State.preheating →
      ¬ k.current_temperature < k.programmed_temperature →
      koven_tick k =
        { k with state := State.baking, remaining_time := k.programmed_duration }) ∧
    (k.state = State.baking → 0 < k.remaining_time →
      koven_tick k = { k with remaining_time := k.remaining_time - 1 }) ∧
    (k.state = State.baking → ¬ 0 < k.remaining_time →
      25 < k.current_temperature →
      koven_tick k =
        { k with
            state := State.coolingDown
            programmed_temperature := -1
            programmed_duration := -1 }) ∧
    (k.state = State.baking → ¬ 0 < k.remaining_time →
      k.current_temperature ≤ 25 → koven_tick k = koven_init) ∧
    (k.state = State.coolingDown → 25 < k.current_temperature →
      koven_tick k = { k with current_temperature := k.current_temperature - 1 }) ∧
    (k.state = State.coolingDown → k.current_temperature ≤ 25 →
      koven_tick k = koven_init) ∧
    (k.state = State.idle → koven_tick k = k) ∧
    koven_tick_c (some k) true =
      (some (koven_tick k),
        some
          { state := stateCode (koven_tick k).state
            current_temperature := (koven_tick k).current_temperature
            remaining_time := (koven_tick k).remaining_time
            programmed_duration := (koven_tick k).programmed_duration
            programmed_temperature := (koven_tick k).programmed_temperature }) := by
  refine ⟨?_, ?_, ?_, ?_, ?_, ?_, ?_, ?_, rfl⟩ <;> intro h1 <;> intros <;>
    simp_all [koven_tick, ROOM_TEMPERATURE] <;>
    split_ifs <;> first | rfl | omega | simp_all

/-- Witness for C1 covering several branches at concrete ovens. -/
theorem C1_tick_spec_witness :
    koven_tick ⟨State.preheating, 25, -1, -1, 30⟩ =
      { (⟨State.preheating, 25, -1, -1, 30⟩ : Koven) with
          current_temperature := 25 + 1 } ∧
    koven_tick ⟨State.baking, 26, 0, 7, 30⟩ =
      { (⟨State.baking, 26, 0, 7, 30⟩ : Koven) with
          state := State.coolingDown
          programmed_temperature := -1
          programmed_duration := -1 } ∧
    koven_tick ⟨State.coolingDown, 25, 0, -1, -1⟩ = koven_init ∧
    koven_tick ⟨State.idle, 25, -1, -1, -1⟩ = ⟨State.idle, 25, -1, -1, -1⟩ :=
  ⟨(C1_tick_spec _).1 rfl (by decide),
   (C1_tick_spec _).2.2.2.1 rfl (by decide) (by decide),
   (C1_tick_spec _).2.2.2.2.2.2.1 rfl (by decide),
   (C1_tick_spec _).2.2.2.2.2.2.2.1 rfl⟩

/-- C2: `koven_execute` implements exactly the specified command
semantics: `Start` (action 1) acts only from Idle, `Stop` (action 2)
unconditionally resets all but the current temperature, and any other
action value is a no-op. -/
theorem C2_execute_spec (k : Koven) (c : CommandPayload) :
    (c.action = 1 → k.state = State.idle →
      koven_execute k c =
        { k with
            state := State.preheating
            programmed_duration := c.duration
            programmed_temperature := c.temperature }) ∧
    (c.action = 1 → k.state ≠ State.idle → koven_execute k c = k) ∧
    (c.action = 2 →
      koven_execute k c =
        { k with
            state := State.idle
            remaining_time := -1
            programmed_temperature := -1
            programmed_duration := -1 }) ∧
    (c.action ≠ 1 → c.action ≠ 2 → koven_execute k c = k) := by
  refine ⟨?_, ?_, ?_, ?_⟩ <;> intro h1 <;>
    simp [koven_execute, h1] <;> intros <;> simp_all

/-- Witness for C2 covering the four command branches at concrete
inputs. -/
theorem C2_execute_spec_witness :
    koven_execute ⟨State.idle, 25, -1, -1, -1⟩ ⟨1, 30, 7⟩ =
      { (⟨State.idle, 25, -1, -1, -1⟩ : Koven) with
          state := State.preheating
          programmed_duration := 7
          programmed_temperature := 30 } ∧
    koven_execute ⟨State.baking, 40, 5, 7, 30⟩ ⟨1, 90, 9⟩ =
      ⟨State.baking, 40, 5, 7, 30⟩ ∧
    koven_execute ⟨State.baking, 40, 5, 7, 30⟩ ⟨2, 0, 0⟩ =
      { (⟨State.baking, 40, 5, 7, 30⟩ : Koven) with
          state := State.idle
          remaining_time := -1
          programmed_temperature := -1
          programmed_duration := -1 } ∧
    koven_execute ⟨State.idle, 25, -1, -1, -1⟩ ⟨0, 3, 4⟩ =
      ⟨State.idle, 25, -1, -1, -1⟩ :=
  ⟨(C2_execute_spec _ _).1 rfl rfl,
   (C2_execute_spec _ _).2.1 rfl (by decide),
   (C2_execute_spec _ _).2.2.1 rfl,
   (C2_execute_spec _ _).2.2.2 (by decide) (by decide)⟩

/-- C7 counterexample: with an absent event reference, `koven_tick` does
NOT apply the state update — the oven is returned unchanged even though
the tick function would change it. -/
theorem C7_counterexample :
    koven_tick_c (some ⟨State.preheating, 25, -1, -1, 30⟩) false =
      (some ⟨State.preheating, 25, -1, -1, 30⟩, none) ∧
    koven_tick ⟨State.preheating, 25, -1, -1, 30⟩ ≠
      ⟨State.preheating, 25, -1, -1, 30⟩ := by decide

/-- C7 amended: a missing Oven reference or a missing Event reference each
make the whole `koven_tick` call a no-op; the oven updates and a snapshot
is produced only when both references are present. -/
theorem C7_tick_guard (koven : Option Koven) (eventPresent : Bool) :
    (eventPresent = false → koven_tick_c koven eventPresent = (koven, none)) ∧
    (koven = none → koven_tick_c koven eventPresent = (none, none)) ∧
    (∀ k, koven = some k → eventPresent = true →
      koven_tick_c koven eventPresent =
        (some (koven_tick k), some (koven_snapshot (koven_tick k)))) := by
  rcases koven with _ | k <;> cases eventPresent <;>
    simp [koven_tick_c]

/-- Witness for C7 at concrete inputs. -/
theorem C7_tick_guard_witness :
    koven_tick_c (some koven_init) false = (some koven_init, none) ∧
    koven_tick_c none true = (none, none) :=
  ⟨(C7_tick_guard (some koven_init) false).1 rfl,
   (C7_tick_guard none true).2.1 rfl⟩

/-- C6 counterexample: the oven reached by `Start(temperature 26,
duration 0)` followed by three ticks is CoolingDown with
`remaining_time = 0`, not `-1`: the Baking → CoolingDown transition
leaves `remaining_time` at its pre-transition value. -/
theorem C6_counterexample :
    Reachable ⟨State.coolingDown, 26, 0, -1, -1⟩ ∧
    (⟨State.coolingDown, 26, 0, -1, -1⟩ : Koven).state ≠ State.baking ∧
    (⟨State.coolingDown, 26, 0, -1, -1⟩ : Koven).remaining_time ≠ -1 := by
  refine ⟨?_, by decide, by decide⟩
  have h4 :=
    Reachable.tick (Reachable.tick (Reachable.tick
      (Reachable.exec ⟨1, 26, 0⟩ Reachable.init)))
  have he :
      koven_tick (koven_tick (koven_tick (koven_execute koven_init ⟨1, 26, 0⟩))) =
        ⟨State.coolingDown, 26, 0, -1, -1⟩ := by decide
  exact he ▸ h4

/-- C6 amended: in every reachable oven, `remaining_time = -1` whenever
the state is Idle or Preheating (in CoolingDown it may retain its last
Baking value), and `programmed_temperature` and `programmed_duration`
are `-1` whenever the state is Idle or CoolingDown. -/
theorem C6_sentinel_invariant (k : Koven) (h : Reachable k) :
    (k.state = State.idle ∨ k.state = State.preheating →
      k.remaining_time = -1) ∧
    (k.state = State.idle ∨ k.state = State.coolingDown →
      k.programmed_temperature = -1 ∧ k.programmed_duration = -1) := by
  induction h with
  | init => decide
  | exec cmd hk ih =>
      unfold koven_execute
      split_ifs <;> simp_all [koven_init]
  | tick hk ih =>
      unfold koven_tick
      split_ifs <;> simp_all [koven_init, ROOM_TEMPERATURE]

/-- Witness for C6 at the initial oven. -/
theorem C6_sentinel_invariant_witness :
    koven_init.remaining_time = -1 ∧
    koven_init.programmed_temperature = -1 ∧
    koven_init.programmed_duration = -1 :=
  ⟨(C6_sentinel_invariant koven_init Reachable.init).1 (Or.inl rfl),
   (C6_sentinel_invariant koven_init Reachable.init).2 (Or.inl rfl)⟩

/-- C10: in every reachable oven the current temperature is at least room
temperature (25). -/
theorem C10_temp_at_least_room (k : Koven) (h : Reachable k) :
    25 ≤ k.current_temperature := by
  induction h with
  | init => decide
  | exec cmd hk ih =>
      unfold koven_execute
      split_ifs <;> simp_all
  | tick hk ih =>
      unfold koven_tick
      split_ifs <;> simp_all [koven_init, ROOM_TEMPERATURE] <;> omega

/-- Witness for C10 at the initial oven. -/
theorem C10_temp_at_least_room_witness : 25 ≤ koven_init.current_temperature :=
  C10_temp_at_least_room koven_init Reachable.init

/-- A buffer of genuine bytes has all its default-0 reads below 256. -/
lemma getD_lt_256 (data : List Nat) (hb : ∀ b ∈ data, b < 256) (i : Nat) :
    data.getD i 0 < 256 := by
  rcases Nat.lt_or_ge i data.length with h | h
  · rw [List.getD_eq_getElem _ _ h]
    exact hb _ (List.getElem_mem h)
  · rw [List.getD_eq_default _ _ h]
    norm_num

/-- On a buffer of genuine bytes the masked read agrees with the raw
read. -/
lemma byteAt_eq_getD (data : List Nat) (hb : ∀ b ∈ data, b < 256) :
    ∀ i, byteAt data i = data.getD i 0 := fun i =>
  Nat.mod_eq_of_lt (getD_lt_256 data hb i)

/-- On a buffer of genuine bytes the little-endian read is the plain
base-256 sum. -/
lemma le_to_uint16_getD (data : List Nat) (hb : ∀ b ∈ data, b < 256) :
    ∀ i j, le_to_uint16 (data.getD i 0) (data.getD j 0) =
      data.getD i 0 + 256 * data.getD j 0 := by
  intro i j
  unfold le_to_uint16
  rw [Nat.mod_eq_of_lt (getD_lt_256 data hb i),
    Nat.mod_eq_of_lt (getD_lt_256 data hb j)]

/-- `unmarshall_command_frame` fails exactly when one of the five checks
in the source fires. -/
lemma unmarshall_none_iff (data : List Nat) :
    unmarshall_command_frame data = none ↔
      (data.length < 10 ∨ byteAt data 0 ≠ 1 ∨
        le_to_uint16 (byteAt data 1) (byteAt data 2) ≠ 5 ∨
        data.length < 1 + 2 + le_to_uint16 (byteAt data 1) (byteAt data 2) + 2 ∨
        le_to_uint16 (byteAt data 8) (byteAt data 9) ≠ crc16_usb (data.take 8)) := by
  simp only [unmarshall_command_frame]
  split_ifs with h1 h2 h3 h4 h5 <;> simp_all

/-- On success `unmarshall_command_frame` extracts the three payload
fields from bytes 3..7. -/
lemma unmarshall_some_eq (data : List Nat) (c : CommandPayload)
    (h : unmarshall_command_frame data = some c) :
    c = { action := byteAt data 3
          temperature := le_to_int16 (byteAt data 4) (byteAt data 5)
          duration := le_to_int16 (byteAt data 6) (byteAt data 7) } := by
  simp only [unmarshall_command_frame] at h
  split_ifs at h <;> simp_all

/-- `marshall_event_frame` fails exactly when the buffer is under 14
bytes. -/
lemma marshall_none_iff (e : EventPayload) (bs : Nat) :
    marshall_event_frame e bs = none ↔ bs < 14 := by
  simp only [marshall_event_frame]
  split_ifs with h <;> simp_all

/-- C3: `unmarshall_command_frame` fails iff one of the five listed
conditions holds, and on success extracts action, temperature and
duration from the payload bytes. -/
theorem C3_unmarshall_spec (data : List Nat) (hb : ∀ b ∈ data, b < 256) :
    (unmarshall_command_frame data = none ↔
      (data.length < 10 ∨ data.getD 0 0 ≠ 1 ∨
        data.getD 1 0 + 256 * data.getD 2 0 ≠ 5 ∨
        data.length < 1 + 2 + (data.getD 1 0 + 256 * data.getD 2 0) + 2 ∨
        data.getD 8 0 + 256 * data.getD 9 0 ≠ crc16_usb (data.take 8))) ∧
    (∀ c, unmarshall_command_frame data = some c →
      c.action = data.getD 3 0 ∧
      c.temperature = le_to_int16 (data.getD 4 0) (data.getD 5 0) ∧
      c.duration = le_to_int16 (data.getD 6 0) (data.getD 7 0)) := by
  have hbyte := byteAt_eq_getD data hb
  have hle := le_to_uint16_getD data hb
  constructor
  · simpa only [hbyte, hle] using unmarshall_none_iff data
  · intro c hc
    rw [unmarshall_some_eq data c hc]
    refine ⟨hbyte 3, ?_, ?_⟩ <;> rw [← hbyte, ← hbyte]

/-- Witness for C3: a valid concrete frame decodes to its payload fields,
and an undersized concrete input fails. -/
theorem C3_unmarshall_spec_witness :
    (⟨2, 0, 0⟩ : CommandPayload).action =
      ([1, 5, 0, 2, 0, 0, 0, 0, 82, 248] : List Nat).getD 3 0 ∧
    unmarshall_command_frame [5, 5, 0] = none :=
  ⟨((C3_unmarshall_spec [1, 5, 0, 2, 0, 0, 0, 0, 82, 248] (by decide)).2
      ⟨2, 0, 0⟩ (by decide)).1,
   (C3_unmarshall_spec [5, 5, 0] (by decide)).1.mpr (Or.inl (by decide))⟩

/-- C4: `marshall_event_frame` fails iff the buffer is under 14 bytes; on
success it writes msg_type 2 at offset 0, payload size 9 little-endian at
offsets 1-2, a 14-byte frame whose last two bytes are the CRC-16/USB of
the first 12 bytes in little-endian, and returns 14. -/
theorem C4_marshall_spec (e : EventPayload) (bs : Nat) :
    (marshall_event_frame e bs = none ↔ bs < 14) ∧
    (∀ f n, marshall_event_frame e bs = some (f, n) →
      n = 14 ∧ f.length = 14 ∧ f.getD 0 0 = 2 ∧
      f.getD 1 0 + 256 * f.getD 2 0 = 9 ∧
      f.drop 12 = uint16_to_le (crc16_usb (f.take 12))) := by
  refine ⟨marshall_none_iff e bs, ?_⟩
  intro f n h
  simp only [marshall_event_frame] at h
  split_ifs at h
  rw [Option.some.injEq, Prod.mk.injEq] at h
  obtain ⟨hf, hn⟩ := h
  subst hf
  subst hn
  exact ⟨rfl, rfl, rfl, rfl, rfl⟩

/-- Witness for C4: encoding into a 0-byte buffer fails, and a concrete
successful encoding satisfies the CRC trailer property. -/
theorem C4_marshall_spec_witness :
    marshall_event_frame ⟨0, 25, -1, -1, -1⟩ 0 = none ∧
    ([2, 9, 0, 0, 25, 0, 255, 255, 255, 255, 255, 255, 140, 79] : List Nat).drop 12 =
      uint16_to_le (crc16_usb
        (([2, 9, 0, 0, 25, 0, 255, 255, 255, 255, 255, 255, 140, 79] : List Nat).take 12)) :=
  ⟨(C4_marshall_spec ⟨0, 25, -1, -1, -1⟩ 0).1.mpr (by decide),
   ((C4_marshall_spec ⟨0, 25, -1, -1, -1⟩ 14).2
      [2, 9, 0, 0, 25, 0, 255, 255, 255, 255, 255, 255, 140, 79] 14
      (by decide)).2.2.2.2⟩

/-- C8 counterexample: for the event with `programmed_duration = 2` and
`programmed_temperature = 1`, the frame bytes at offsets 8-9 (payload
bytes 5-6) are the encoding of `programmed_duration`, not of
`programmed_temperature` as the claimed order would require. -/
theorem C8_counterexample :
    marshall_event_frame ⟨0, 0, 0, 2, 1⟩ 14 =
      some ([2, 9, 0, 0, 0, 0, 0, 0, 2, 0, 1, 0, 76, 142], 14) ∧
    ([2, 9, 0, 0, 0, 0, 0, 0, 2, 0, 1, 0, 76, 142] : List Nat).getD 8 0 = 2 ∧
    ([(2 : Nat), 0] : List Nat) = int16_to_le (2 : Int) ∧
    ([(2 : Nat), 0] : List Nat) ≠ int16_to_le (1 : Int) := by decide

/-- C8 amended: `marshall_event_frame` writes the five Event fields in
the order of the `EventPayload` struct: state (1 byte), then
current_temperature, remaining_time, programmed_duration,
programmed_temperature, each signed 16-bit little-endian. -/
theorem C8_payload_order (e : EventPayload) (bs : Nat) (f : List Nat) (n : Nat)
    (h : marshall_event_frame e bs = some (f, n)) :
    f.getD 3 0 = e.state % 256 ∧
    [f.getD 4 0, f.getD 5 0] = int16_to_le e.current_temperature ∧
    [f.getD 6 0, f.getD 7 0] = int16_to_le e.remaining_time ∧
    [f.getD 8 0, f.getD 9 0] = int16_to_le e.programmed_duration ∧
    [f.getD 10 0, f.getD 11 0] = int16_to_le e.programmed_temperature := by
  simp only [marshall_event_frame] at h
  split_ifs at h
  rw [Option.some.injEq, Prod.mk.injEq] at h
  obtain ⟨hf, hn⟩ := h
  subst hf
  exact ⟨rfl, rfl, rfl, rfl, rfl⟩

/-- Witness for C8 at a concrete event and its computed frame. -/
theorem C8_payload_order_witness :
    [([2, 9, 0, 3, 100, 0, 44, 1, 88, 2, 180, 0, 160, 65] : List Nat).getD 8 0,
      ([2, 9, 0, 3, 100, 0, 44, 1, 88, 2, 180, 0, 160, 65] : List Nat).getD 9 0] =
      int16_to_le (600 : Int) :=
  (C8_payload_order ⟨3, 100, 300, 600, 180⟩ 14
    [2, 9, 0, 3, 100, 0, 44, 1, 88, 2, 180, 0, 160, 65] 14 (by decide)).2.2.2.1

/-- C9 counterexample: an undersized input and a wrong-message-type input
fail for different listed causes yet produce the very same result. -/
theorem C9_counterexample :
    ([] : List Nat).length < 10 ∧
    ¬ ([5, 5, 0, 1, 0, 0, 0, 0, 0, 0] : List Nat).length < 10 ∧
    ([5, 5, 0, 1, 0, 0, 0, 0, 0, 0] : List Nat).getD 0 0 ≠ 1 ∧
    unmarshall_command_frame [] =
      unmarshall_command_frame [5, 5, 0, 1, 0, 0, 0, 0, 0, 0] := by decide

/-- C9 amended: every listed frame-error condition is reported to the
caller through the same single failure value (the C `-1`, modelled
`none`); the causes are distinguished only in diagnostic stderr
messages, not in the returned result. -/
theorem C9_single_failure_value (data : List Nat) (e : EventPayload) (bs : Nat) :
    (data.length < 10 → unmarshall_command_frame data = none) ∧
    (byteAt data 0 ≠ 1 → unmarshall_command_frame data = none) ∧
    (le_to_uint16 (byteAt data 1) (byteAt data 2) ≠ 5 →
      unmarshall_command_frame data = none) ∧
    (data.length < 1 + 2 + le_to_uint16 (byteAt data 1) (byteAt data 2) + 2 →
      unmarshall_command_frame data = none) ∧
    (le_to_uint16 (byteAt data 8) (byteAt data 9) ≠ crc16_usb (data.take 8) →
      unmarshall_command_frame data = none) ∧
    (bs < 14 → marshall_event_frame e bs = none) := by
  refine ⟨?_, ?_, ?_, ?_, ?_, (marshall_none_iff e bs).mpr⟩ <;> intro h <;>
    exact (unmarshall_none_iff data).mpr (by tauto)

/-- Witness for C9 at concrete inputs. -/
theorem C9_single_failure_value_witness :
    unmarshall_command_frame [] = none ∧
    marshall_event_frame ⟨0, 0, 0, 0, 0⟩ 0 = none :=
  ⟨(C9_single_failure_value [] ⟨0, 0, 0, 0, 0⟩ 0).1 (by decide),
   (C9_single_failure_value [] ⟨0, 0, 0, 0, 0⟩ 0).2.2.2.2.2 (by decide)⟩
